import Mathlib

/-!
Verification of the zeno-indexer core primitives: the retrying JSON fetcher
with circuit breaker, the token-bucket rate limiter, the validated
primary-database cutover, and the cursor-driven metadata sync pipelines.
Each definition is a shallow embedding of the corresponding Rust item,
with the source file and lines noted in its doc comment.  External effects
(HTTP responses, JSON parsing, database probes, insert results) are supplied
by explicit environment records so the control flow of the source becomes a
pure function of the environment.
-/

namespace Zeno

/-- Outcome of fetching and parsing JSON from an external API.
Embeds `enum FetchResult<T>` (src/utils.rs lines 25-33). -/
inductive FetchResult (T : Type) where
  | Success (value : T)
  | Empty
  | Failed (msg : String)
deriving DecidableEq

/-- Observable events of one `get_json_with_retry` call: a rate-limiter
token acquisition, or one HTTP attempt (numbered from 1 as in the source's
`for attempt in 1..=max_retry`). -/
inductive FetchEvent where
  | acquire
  | attempt (n : Nat)
deriving DecidableEq

/-- What the transport layer returns for one attempt, before the body
classification of src/utils.rs lines 265-318: a send error, a non-2xx
status, a body-read error, or a 2xx body text. -/
inductive AttemptOutcome where
  | requestError (msg : String)
  | httpError (msg : String)
  | bodyReadError (msg : String)
  | body (text : String)
deriving DecidableEq

/-- Environment for `get_json_with_retry`: the transport outcome of each
attempt (indexed by attempt number) and the JSON deserializer
(`serde_json::from_str::<T>`), abstracted as an Option-valued function. -/
structure FetchEnv (T : Type) where
  responses : Nat → AttemptOutcome
  parse : String → Option T

variable {T : Type}

/-- Classification of one attempt, embedding the body of the match on
`req.send().await` in src/utils.rs lines 265-318.  `some r` means the
function returns `r` immediately; `none` means this attempt counts as a
failure (`consecutive_fail += 1`): transport error, non-2xx status,
body-read error, or a 2xx body that fails to deserialize. -/
def attemptStep (env : FetchEnv T) (attempt : Nat) : Option (FetchResult T) :=
  match env.responses attempt with
  | .requestError _ => none
  | .httpError _ => none
  | .bodyReadError _ => none
  | .body text =>
    if text.trim.isEmpty || text == "[]" then some .Empty
    else
      match env.parse text with
      | some v => some (.Success v)
      | none => none

/-- The retry loop of `get_json_with_retry` (src/utils.rs lines 261-338),
by fuel: `fuel` is the number of attempts still allowed, so the current
attempt number is `maxRetry - (fuel - 1)`.  Returns the result together
with the list of attempt events made.  The circuit breaker aborts once
`consecutive_fail >= max_consecutive_fail`; exhausting the budget yields
the "after N attempts" failure.  (The inter-attempt backoff sleep affects
timing only and is not modelled.) -/
def fetchLoop (env : FetchEnv T) (url : String) (maxRetry maxConsecFail : Nat) :
    Nat → Nat → FetchResult T × List FetchEvent
  | 0, _ =>
    (.Failed ("Failed to fetch " ++ url ++ " after " ++ toString maxRetry ++ " attempts"), [])
  | fuel + 1, consecFail =>
    let attempt := maxRetry - fuel
    match attemptStep env attempt with
    | some r => (r, [.attempt attempt])
    | none =>
      let cf2 := consecFail + 1
      if maxConsecFail ≤ cf2 then
        (.Failed ("Failed to fetch " ++ url ++ ": " ++ toString cf2 ++ " consecutive failures"),
         [.attempt attempt])
      else
        let rest := fetchLoop env url maxRetry maxConsecFail fuel cf2
        (rest.1, .attempt attempt :: rest.2)

/-- Embeds `get_json_with_retry` (src/utils.rs lines 241-339).  When a rate
limiter is supplied (`hasLimiter`), `acquire()` is called once before the
retry loop (lines 252-259); the returned event list records that
acquisition followed by the attempts made. -/
def get_json_with_retry (env : FetchEnv T) (url : String)
    (maxRetry maxConsecFail : Nat) (hasLimiter : Bool) :
    FetchResult T × List FetchEvent :=
  let r := fetchLoop env url maxRetry maxConsecFail maxRetry 0
  (r.1, (if hasLimiter then [FetchEvent.acquire] else []) ++ r.2)

/-- Whether an event is a rate-limiter acquisition. -/
def FetchEvent.isAcquire : FetchEvent → Bool
  | .acquire => true
  | .attempt _ => false

/-- Whether an event is an HTTP attempt. -/
def FetchEvent.isAttempt : FetchEvent → Bool
  | .acquire => false
  | .attempt _ => true

/-- Number of rate-limiter grants consumed in an event trace. -/
def acquireCount (evs : List FetchEvent) : Nat :=
  (evs.filter FetchEvent.isAcquire).length

/-- Number of HTTP attempts made in an event trace. -/
def attemptCount (evs : List FetchEvent) : Nat :=
  (evs.filter FetchEvent.isAttempt).length

-- ======================= Rate limiter =======================

/-- Embeds `struct RateLimiter` (src/utils.rs lines 58-70): capacity,
refill period and minimum spacing between grants.  Durations are modelled
as natural numbers of nanoseconds. -/
structure RateLimiter where
  maxTokens : Nat
  refillInterval : Nat
  minRequestInterval : Nat
deriving DecidableEq

/-- Embeds `RateLimiter::new` (src/utils.rs lines 84-100): both the refill
interval and the minimum request interval are `time_window / max_requests`
(`Duration::div_f64`, modelled by natural division on nanoseconds). -/
def RateLimiter.new (maxRequests timeWindow : Nat) : RateLimiter :=
  { maxTokens := maxRequests
    refillInterval := timeWindow / maxRequests
    minRequestInterval := timeWindow / maxRequests }

/-- Mutable state of a limiter: the semaphore's available permits and the
`last_request_time` cell. -/
structure RLState where
  permits : Nat
  lastRequestTime : Option Nat
deriving DecidableEq

/-- One tick of the background refill task (src/utils.rs lines 106-123):
a permit is added only when available permits are below capacity. -/
def refillStep (rl : RateLimiter) (s : RLState) : RLState :=
  if s.permits < rl.maxTokens then { s with permits := s.permits + 1 } else s

/-- The effective time of a grant (src/utils.rs lines 146-157) in logical
time: if less than `min_request_interval` has elapsed since the last grant
the caller sleeps until exactly `last + min_request_interval`, which
becomes the grant time; the first-ever grant happens at `now`. -/
def grantTimeOf (rl : RateLimiter) (now : Nat) : Option Nat → Nat
  | none => now
  | some last =>
    if now - last < rl.minRequestInterval then last + rl.minRequestInterval else now

/-- One completed `acquire()` (src/utils.rs lines 132-166): requires a
permit (`none` when the semaphore is empty and the caller keeps waiting),
consumes it (`permit.forget()`), and records the grant time as the new
`last_request_time`. -/
def acquireStep (rl : RateLimiter) (now : Nat) (s : RLState) : Option (Nat × RLState) :=
  if s.permits = 0 then none
  else
    some (grantTimeOf rl now s.lastRequestTime,
      { permits := s.permits - 1
        lastRequestTime := some (grantTimeOf rl now s.lastRequestTime) })

/-- Interleaved events acting on one limiter: a refill-task tick, or an
acquire request arriving at a given time. -/
inductive RLEvent where
  | refillTick
  | acquireReq (now : Nat)

/-- Runs a sequence of limiter events, returning the final state and the
grant times issued, in order.  An acquire request finding no permit is a
stalled waiter (it proceeds only via a later request after a refill). -/
def runRL (rl : RateLimiter) : RLState → List RLEvent → RLState × List Nat
  | s, [] => (s, [])
  | s, RLEvent.refillTick :: evs => runRL rl (refillStep rl s) evs
  | s, RLEvent.acquireReq now :: evs =>
    match acquireStep rl now s with
    | none => runRL rl s evs
    | some (t, s2) =>
      let rest := runRL rl s2 evs
      (rest.1, t :: rest.2)

-- ======================= Database cutover =======================

/-- A sqlx connection pool, identified by the URL it was built for and its
connection cap (`PgPoolOptions::new().max_connections(..)`). -/
structure Pool where
  url : String
  maxConnections : Nat
deriving DecidableEq

/-- The `sqlx::Error` cases reachable in `update_primary_db_url`: an
operational error from connect/query/execute (carrying a message), or the
explicitly constructed `Error::Configuration`. -/
inductive SqlxError where
  | io (msg : String)
  | configuration (msg : String)
deriving DecidableEq

/-- Database-side environment for the cutover: whether connecting to a URL
fails, the result of the `SELECT pg_is_in_recovery()` probe, and the
results of the three write-probe statements (CREATE TEMPORARY TABLE,
INSERT, DROP) against a given pool.  `none` for a probe means it
succeeded. -/
structure DbEnv where
  connectFails : String → Option SqlxError
  pgIsInRecovery : Pool → Except SqlxError Bool
  createHealthCheck : Pool → Option SqlxError
  insertHealthCheck : Pool → Option SqlxError
  dropHealthCheck : Pool → Option SqlxError

/-- `DEFAULT_MAX_CONNECTIONS` (src/config.rs line 11). -/
def DEFAULT_MAX_CONNECTIONS : Nat := 5

/-- `PgPoolOptions::new().max_connections(5).connect(&new_url)`
(src/config.rs lines 62-65): builds a pool for the URL unless the
environment says the connection fails. -/
def connectPool (env : DbEnv) (url : String) : Except SqlxError Pool :=
  match env.connectFails url with
  | some e => .error e
  | none => .ok { url := url, maxConnections := DEFAULT_MAX_CONNECTIONS }

/-- Embeds `struct PostgresDb` (src/config.rs lines 17-23). -/
structure PostgresDb where
  primary_db_url : String
  pool : Pool
deriving DecidableEq

/-- Embeds `PostgresDb::update_primary_db_url` (src/config.rs lines
60-96).  The `&mut self` receiver becomes explicit state passing: the
result is the returned `Result` together with the `PostgresDb` after the
call.  Every `?` early return propagates the error with the state
untouched; `self.primary_db_url` and `self.pool` are assigned only on the
final all-checks-passed path. -/
def PostgresDb.update_primary_db_url (env : DbEnv) (db : PostgresDb) (newUrl : String) :
    Except SqlxError Unit × PostgresDb :=
  match connectPool env newUrl with
  | .error e => (.error e, db)
  | .ok newPool =>
    match env.pgIsInRecovery newPool with
    | .error e => (.error e, db)
    | .ok isInRecovery =>
      if isInRecovery then
        (.error (.configuration "New URL is a replica, not a primary database"), db)
      else
        match env.createHealthCheck newPool with
        | some e => (.error e, db)
        | none =>
          match env.insertHealthCheck newPool with
          | some e => (.error e, db)
          | none =>
            match env.dropHealthCheck newPool with
            | some e => (.error e, db)
            | none => (.ok (), { primary_db_url := newUrl, pool := newPool })

/-- The reqwest HTTP client, abstracted to its configured timeout. -/
structure HttpClient where
  timeoutSecs : Nat
deriving DecidableEq

/-- Embeds `struct Config` (src/config.rs lines 190-215): the database
manager plus every other runtime field. -/
structure Config where
  postgres_db : PostgresDb
  manager_key : String
  coingecko_key : String
  openexchangerates_key : String
  http_client : HttpClient
  blockscout_endpoints : List (Int × String)
  forex_interval_secs : Nat
  is_initializing_metadata : Bool
  token_update_id : Int
  nft_update_id : Int
  coingecko_rate_limiter : RateLimiter
deriving DecidableEq

/-- Embeds `Config::update_db_url` (src/config.rs lines 302-304): forwards
to `PostgresDb::update_primary_db_url` on the `postgres_db` field. -/
def Config.update_db_url (env : DbEnv) (c : Config) (newUrl : String) :
    Except SqlxError Unit × Config :=
  let r := PostgresDb.update_primary_db_url env c.postgres_db newUrl
  (r.1, { c with postgres_db := r.2 })

-- ======================= Metadata sync pipelines =======================

/-- One row of the `tokenmap` / `nftmap` table as loaded by the pipelines
(`SELECT id, tokenid/nftid, name, chainid, address ... ORDER BY id ASC`):
the increasing row id, the CoinGecko key, the chain id and the contract
address.  (The unused `name` column is omitted.) -/
structure MapRow where
  id : Int
  key : String
  chainid : Int
  address : String
deriving DecidableEq

/-- The per-item fetch outcome as consumed by the pipelines: the source
matches on `FetchResult<Value>` and reads only the `symbol` and `name`
string fields (via `.get(..).and_then(as_str).unwrap_or("")`, so a missing
field and an empty string coincide). -/
inductive ItemFetch where
  | success (symbol name : String)
  | empty
  | failed (msg : String)
deriving DecidableEq

/-- Environment of one pipeline cycle: the preloaded `(address, chainid)`
pairs already present in the metadata table, the fetch outcome for each
row id, and whether `insert_metadata` succeeds for each row id. -/
structure CycleEnv where
  existing : List (String × Int)
  fetchOf : Int → ItemFetch
  insertOk : Int → Bool

/-- The mutable locals of the per-item loop: `entry_consecutive_fail`,
`first_fail_id`, the `inserted`/`skipped` counters, and (for the frame of
the claims) the list of row ids for which `insert_metadata` was called. -/
structure LoopState where
  consecFail : Nat
  firstFailId : Option Int
  inserted : Nat
  skipped : Nat
  writeAttempts : List Int
deriving DecidableEq

/-- Result of one loop iteration: continue with the next item, or abort
the cycle with a rollback cursor value. -/
inductive StepOut where
  | next (s : LoopState)
  | abort (rollback : Int) (s : LoopState)
deriving DecidableEq

/-- Initial loop state at cycle start (src/worker/metadata.rs lines
444-445 and 469-470). -/
def initLoopState : LoopState :=
  { consecFail := 0, firstFailId := none, inserted := 0, skipped := 0, writeAttempts := [] }

/-- One iteration of the `fetch_token_metadata` per-item loop
(src/worker/metadata.rs lines 473-574): skip rows whose key is already in
the metadata table; on `Success` with empty symbol or name, `continue`
(before the counter reset, so the failure streak state is untouched); on
`Success` with both fields present, call `insert_metadata` (an insert
error only logs) and reset the streak; on `Empty`, reset the streak; on
`Failed`, record the streak's first id when the counter is 0, increment,
and once the counter exceeds 2 abort with the cursor rolled back to
`first_fail_id.unwrap_or(id).saturating_sub(1).max(0)`. -/
def tokenMetadataStep (env : CycleEnv) (s : LoopState) (row : MapRow) : StepOut :=
  if (row.address, row.chainid) ∈ env.existing then
    .next { s with skipped := s.skipped + 1 }
  else
    match env.fetchOf row.id with
    | .success symbol name =>
      if symbol.isEmpty || name.isEmpty then
        .next s
      else
        let s1 := { s with
          writeAttempts := s.writeAttempts ++ [row.id]
          inserted := if env.insertOk row.id then s.inserted + 1 else s.inserted }
        .next { s1 with consecFail := 0, firstFailId := none }
    | .empty => .next { s with consecFail := 0, firstFailId := none }
    | .failed _ =>
      let ffid := if s.consecFail = 0 then some row.id else s.firstFailId
      let cf2 := s.consecFail + 1
      if 2 < cf2 then
        .abort (max ((ffid.getD row.id) - 1) 0)
          { s with consecFail := cf2, firstFailId := ffid }
      else
        .next { s with consecFail := cf2, firstFailId := ffid }

/-- One iteration of the `fetch_nft_metadata` per-item loop
(src/worker/metadata.rs lines 790-883), which has the same structure as
the token loop: validation `continue` before the reset, reset on insert or
`Empty`, streak tracking and rollback on `Failed`. -/
def nftMetadataStep (env : CycleEnv) (s : LoopState) (row : MapRow) : StepOut :=
  if (row.address, row.chainid) ∈ env.existing then
    .next { s with skipped := s.skipped + 1 }
  else
    match env.fetchOf row.id with
    | .success symbol name =>
      if symbol.isEmpty || name.isEmpty then
        .next s
      else
        let s1 := { s with
          writeAttempts := s.writeAttempts ++ [row.id]
          inserted := if env.insertOk row.id then s.inserted + 1 else s.inserted }
        .next { s1 with consecFail := 0, firstFailId := none }
    | .empty => .next { s with consecFail := 0, firstFailId := none }
    | .failed _ =>
      let ffid := if s.consecFail = 0 then some row.id else s.firstFailId
      let cf2 := s.consecFail + 1
      if 2 < cf2 then
        .abort (max ((ffid.getD row.id) - 1) 0)
          { s with consecFail := cf2, firstFailId := ffid }
      else
        .next { s with consecFail := cf2, firstFailId := ffid }

/-- Outcome of a whole cycle's loop: completed normally, or aborted with a
rollback cursor. -/
inductive CycleResult where
  | completed (s : LoopState)
  | aborted (rollback : Int) (s : LoopState)
deriving DecidableEq

/-- The `fetch_token_metadata` per-item loop over the loaded rows. -/
def tokenMetadataLoop (env : CycleEnv) : List MapRow → LoopState → CycleResult
  | [], s => .completed s
  | row :: rest, s =>
    match tokenMetadataStep env s row with
    | .next s2 => tokenMetadataLoop env rest s2
    | .abort c s2 => .aborted c s2

/-- The `fetch_nft_metadata` per-item loop over the loaded rows. -/
def nftMetadataLoop (env : CycleEnv) : List MapRow → LoopState → CycleResult
  | [], s => .completed s
  | row :: rest, s =>
    match nftMetadataStep env s row with
    | .next s2 => nftMetadataLoop env rest s2
    | .abort c s2 => .aborted c s2

/-- One `fetch_token_metadata` cycle (src/worker/metadata.rs lines
439-584) over the rows loaded by `WHERE id > $1 ORDER BY id ASC`: runs the
loop from the initial state and returns the new cursor
(`config.token_update_id`) together with the loop outcome — the rollback
id on abort, 0 on completion (line 582). -/
def fetch_token_metadata_model (env : CycleEnv) (rows : List MapRow) : Int × CycleResult :=
  match tokenMetadataLoop env rows initLoopState with
  | .completed s => (0, .completed s)
  | .aborted c s => (c, .aborted c s)

/-- One `fetch_nft_metadata` cycle (src/worker/metadata.rs lines 756-893),
analogously: rollback id on abort, cursor 0 on completion (line 891). -/
def fetch_nft_metadata_model (env : CycleEnv) (rows : List MapRow) : Int × CycleResult :=
  match nftMetadataLoop env rows initLoopState with
  | .completed s => (0, .completed s)
  | .aborted c s => (c, .aborted c s)

/-- The next cycle's load query `WHERE id > $1` over the full map table. -/
def loadBeyond (allRows : List MapRow) (cursor : Int) : List MapRow :=
  allRows.filter (fun r => decide (cursor < r.id))

-- ======================= Theorems =======================

/-- Every event emitted inside the retry loop is an HTTP attempt: the
loop body never touches the rate limiter. -/
theorem fetchLoop_events_attempt (env : FetchEnv T) (url : String) (mr mcf : Nat) :
    ∀ fuel cf e, e ∈ (fetchLoop env url mr mcf fuel cf).2 → ∃ n, e = FetchEvent.attempt n := by
  intro fuel
  induction fuel with
  | zero => intro cf e he; simp [fetchLoop] at he
  | succ k ih =>
    intro cf e he
    simp only [fetchLoop] at he
    cases hstep : attemptStep env (mr - k) with
    | some r =>
      rw [hstep] at he
      simp at he
      exact ⟨mr - k, he⟩
    | none =>
      rw [hstep] at he
      by_cases hc : mcf ≤ cf + 1
      · simp [hc] at he
        exact ⟨mr - k, he⟩
      · simp [hc] at he
        rcases he with he | he
        · exact ⟨mr - k, he⟩
        · exact ih (cf + 1) e he

/-- C4: with a rate limiter supplied, `get_json_with_retry` calls
`acquire()` exactly once, before the first attempt: its event trace is one
acquisition followed only by attempt events, so the grants consumed equal
the number of logical fetch calls, independent of per-call attempt
counts. -/
theorem c4_one_grant_per_logical_fetch (env : FetchEnv T) (url : String)
    (maxRetry maxConsecFail : Nat) :
    ∃ rest : List FetchEvent,
      (get_json_with_retry env url maxRetry maxConsecFail true).2 = FetchEvent.acquire :: rest ∧
      acquireCount (get_json_with_retry env url maxRetry maxConsecFail true).2 = 1 ∧
      ∀ e ∈ rest, ∃ n, e = FetchEvent.attempt n := by
  refine ⟨(fetchLoop env url maxRetry maxConsecFail maxRetry 0).2, rfl, ?_, ?_⟩
  · have hnil :
        (fetchLoop env url maxRetry maxConsecFail maxRetry 0).2.filter FetchEvent.isAcquire
          = [] := by
      rw [List.filter_eq_nil_iff]
      intro e he
      rcases fetchLoop_events_attempt env url maxRetry maxConsecFail maxRetry 0 e he with ⟨n, rfl⟩
      simp [FetchEvent.isAcquire]
    simp [acquireCount, get_json_with_retry, List.filter_append, hnil, FetchEvent.isAcquire]
  · exact fun e he => fetchLoop_events_attempt env url maxRetry maxConsecFail maxRetry 0 e he

/-- A non-2xx status makes the attempt count as a failure. -/
theorem attemptStep_of_httpError (env : FetchEnv T) (n : Nat) (m : String)
    (h : env.responses n = AttemptOutcome.httpError m) : attemptStep env n = none := by
  simp [attemptStep, h]

/-- C5: with `max_retry = 5` and `max_consecutive_fail = 3` against an
upstream whose every response is a server error, exactly 3 attempts are
made (the circuit breaker aborts before exhausting the attempt budget) and
the result is `Failed`. -/
theorem c5_circuit_breaker_three_attempts (env : FetchEnv T) (url : String) (hasLimiter : Bool)
    (h : ∀ n, ∃ m, env.responses n = AttemptOutcome.httpError m) :
    (get_json_with_retry env url 5 3 hasLimiter).1 =
      FetchResult.Failed
        ("Failed to fetch " ++ url ++ ": " ++ toString 3 ++ " consecutive failures") ∧
    attemptCount (get_json_with_retry env url 5 3 hasLimiter).2 = 3 := by
  obtain ⟨m1, h1⟩ := h 1
  obtain ⟨m2, h2⟩ := h 2
  obtain ⟨m3, h3⟩ := h 3
  have a1 := attemptStep_of_httpError env 1 m1 h1
  have a2 := attemptStep_of_httpError env 2 m2 h2
  have a3 := attemptStep_of_httpError env 3 m3 h3
  constructor <;>
    cases hasLimiter <;>
      simp [get_json_with_retry, fetchLoop, a1, a2, a3, attemptCount, FetchEvent.isAttempt]

/-- C6: on a 2xx response, an empty/whitespace body or the literal `"[]"`
yields `Empty` immediately with no further attempts; a body that fails to
deserialize counts as a failure; a (non-empty) body that deserializes
yields `Success` immediately. -/
theorem c6_body_classification (env : FetchEnv T) (url : String)
    (maxRetry maxConsecFail : Nat) (hasLimiter : Bool) (t : String) (v : T)
    (hmr : 1 ≤ maxRetry) :
    (env.responses 1 = AttemptOutcome.body t → (t.trim.isEmpty || (t == "[]")) = true →
      (get_json_with_retry env url maxRetry maxConsecFail hasLimiter).1 = FetchResult.Empty ∧
      attemptCount (get_json_with_retry env url maxRetry maxConsecFail hasLimiter).2 = 1) ∧
    (env.responses 1 = AttemptOutcome.body t → (t.trim.isEmpty || (t == "[]")) = false →
      env.parse t = none → attemptStep env 1 = none) ∧
    (env.responses 1 = AttemptOutcome.body t → (t.trim.isEmpty || (t == "[]")) = false →
      env.parse t = some v →
      (get_json_with_retry env url maxRetry maxConsecFail hasLimiter).1 =
        FetchResult.Success v ∧
      attemptCount (get_json_with_retry env url maxRetry maxConsecFail hasLimiter).2 = 1) := by
  obtain ⟨k, rfl⟩ : ∃ k, maxRetry = k + 1 := ⟨maxRetry - 1, by omega⟩
  have hattempt : k + 1 - k = 1 := by omega
  refine ⟨?_, ?_, ?_⟩
  · intro hresp hempty
    have hstep : attemptStep env 1 = some FetchResult.Empty := by
      simp [attemptStep, hresp, hempty]
    constructor <;>
      cases hasLimiter <;>
        simp [get_json_with_retry, fetchLoop, hattempt, hstep, attemptCount, FetchEvent.isAttempt]
  · intro hresp hempty hparse
    simp [attemptStep, hresp, hempty, hparse]
  · intro hresp hempty hparse
    have hstep : attemptStep env 1 = some (FetchResult.Success v) := by
      simp [attemptStep, hresp, hempty, hparse]
    constructor <;>
      cases hasLimiter <;>
        simp [get_json_with_retry, fetchLoop, hattempt, hstep, attemptCount, FetchEvent.isAttempt]

/-- C10: with `max_retry = 0` the function makes no HTTP attempt and
returns `Failed` ("after 0 attempts"), yet with a rate limiter supplied it
still consumes one grant: the trace is exactly one acquisition. -/
theorem c10_zero_retries (env : FetchEnv T) (url : String) (maxConsecFail : Nat) :
    get_json_with_retry env url 0 maxConsecFail true =
      (FetchResult.Failed ("Failed to fetch " ++ url ++ " after " ++ toString 0 ++ " attempts"),
        [FetchEvent.acquire]) ∧
    acquireCount (get_json_with_retry env url 0 maxConsecFail true).2 = 1 ∧
    attemptCount (get_json_with_retry env url 0 maxConsecFail true).2 = 0 :=
  ⟨rfl, rfl, rfl⟩

/-- Environment whose every response is a server error, for the C5
witness. -/
def c5Env : FetchEnv Unit :=
  { responses := fun _ => AttemptOutcome.httpError "500 Internal Server Error"
    parse := fun _ => none }

/-- Witness for C5 at a concrete always-failing upstream. -/
theorem c5_witness :
    (get_json_with_retry c5Env "https://api.example.com/data" 5 3 true).1 =
      FetchResult.Failed
        ("Failed to fetch " ++ "https://api.example.com/data" ++ ": " ++ toString 3 ++
          " consecutive failures") ∧
    attemptCount (get_json_with_retry c5Env "https://api.example.com/data" 5 3 true).2 = 3 :=
  c5_circuit_breaker_three_attempts c5Env "https://api.example.com/data" true
    (fun _ => ⟨"500 Internal Server Error", rfl⟩)

/-- Environment whose first response is a 2xx with body `"[]"`, for the
C6 witness. -/
def c6Env : FetchEnv Unit :=
  { responses := fun _ => AttemptOutcome.body "[]"
    parse := fun _ => none }

/-- Witness for C6: the literal `"[]"` body yields `Empty` after a single
attempt. -/
theorem c6_witness :
    (get_json_with_retry c6Env "https://api.example.com/list" 1 3 true).1 = FetchResult.Empty ∧
    attemptCount (get_json_with_retry c6Env "https://api.example.com/list" 1 3 true).2 = 1 :=
  (c6_body_classification c6Env "https://api.example.com/list" 1 3 true "[]" () (by decide)).1
    rfl (by simp)

/-- Exhaustive case split of the cutover: either some step failed and the
state is returned untouched, or every check passed and both fields are
swapped to the validated candidate pool. -/
theorem update_primary_cases (env : DbEnv) (db : PostgresDb) (newUrl : String) :
    (∃ e, PostgresDb.update_primary_db_url env db newUrl = (.error e, db)) ∨
    (∃ p, connectPool env newUrl = .ok p ∧
      env.pgIsInRecovery p = .ok false ∧
      env.createHealthCheck p = none ∧
      env.insertHealthCheck p = none ∧
      env.dropHealthCheck p = none ∧
      PostgresDb.update_primary_db_url env db newUrl =
        (.ok (), { primary_db_url := newUrl, pool := p })) := by
  cases hc : connectPool env newUrl with
  | error e => exact Or.inl ⟨e, by simp [PostgresDb.update_primary_db_url, hc]⟩
  | ok p =>
    cases hr : env.pgIsInRecovery p with
    | error e => exact Or.inl ⟨e, by simp [PostgresDb.update_primary_db_url, hc, hr]⟩
    | ok b =>
      cases b with
      | true =>
        exact Or.inl ⟨SqlxError.configuration "New URL is a replica, not a primary database",
          by simp [PostgresDb.update_primary_db_url, hc, hr]⟩
      | false =>
        cases h1 : env.createHealthCheck p with
        | some e => exact Or.inl ⟨e, by simp [PostgresDb.update_primary_db_url, hc, hr, h1]⟩
        | none =>
          cases h2 : env.insertHealthCheck p with
          | some e =>
            exact Or.inl ⟨e, by simp [PostgresDb.update_primary_db_url, hc, hr, h1, h2]⟩
          | none =>
            cases h3 : env.dropHealthCheck p with
            | some e =>
              exact Or.inl ⟨e, by simp [PostgresDb.update_primary_db_url, hc, hr, h1, h2, h3]⟩
            | none =>
              exact Or.inr ⟨p, rfl, hr, h1, h2, h3,
                by simp [PostgresDb.update_primary_db_url, hc, hr, h1, h2, h3]⟩

/-- C1: if the cutover fails at any step — connecting to the candidate,
the recovery probe, or any of the three write-probe statements — it
returns an error and the active `primary_db_url`/`pool` pair is identical
to before the call; the swap of both fields happens only on the path where
every check passed, and `Config::update_db_url` inherits the same
all-or-nothing behaviour. -/
theorem c1_cutover_all_or_nothing (env : DbEnv) (db : PostgresDb) (cfg : Config)
    (newUrl : String) :
    (∀ e, (PostgresDb.update_primary_db_url env db newUrl).1 = .error e →
      (PostgresDb.update_primary_db_url env db newUrl).2 = db) ∧
    ((PostgresDb.update_primary_db_url env db newUrl).1 = .ok () →
      ∃ p, connectPool env newUrl = .ok p ∧
        env.pgIsInRecovery p = .ok false ∧
        env.createHealthCheck p = none ∧
        env.insertHealthCheck p = none ∧
        env.dropHealthCheck p = none ∧
        (PostgresDb.update_primary_db_url env db newUrl).2 =
          { primary_db_url := newUrl, pool := p }) ∧
    (∀ e, (Config.update_db_url env cfg newUrl).1 = .error e →
      (Config.update_db_url env cfg newUrl).2 = cfg) := by
  refine ⟨?_, ?_, ?_⟩
  · intro e he
    rcases update_primary_cases env db newUrl with ⟨e2, heq⟩ | ⟨p, _, _, _, _, _, heq⟩
    · rw [heq]
    · rw [heq] at he
      simp at he
  · intro hok
    rcases update_primary_cases env db newUrl with ⟨e2, heq⟩ | ⟨p, hc, hr, h1, h2, h3, heq⟩
    · rw [heq] at hok
      simp at hok
    · exact ⟨p, hc, hr, h1, h2, h3, by rw [heq]⟩
  · intro e he
    rcases update_primary_cases env cfg.postgres_db newUrl with ⟨e2, heq⟩ | ⟨p, _, _, _, _, _, heq⟩
    · simp [Config.update_db_url, heq]
    · simp [Config.update_db_url, heq] at he

/-- All-checks-pass database environment (for witnesses). -/
def dbEnvOk : DbEnv :=
  { connectFails := fun _ => none
    pgIsInRecovery := fun _ => .ok false
    createHealthCheck := fun _ => none
    insertHealthCheck := fun _ => none
    dropHealthCheck := fun _ => none }

/-- Environment whose candidate reports recovery (replica) mode. -/
def dbEnvReplica : DbEnv :=
  { dbEnvOk with pgIsInRecovery := fun _ => .ok true }

/-- The active connection before a cutover attempt (for witnesses). -/
def db0 : PostgresDb :=
  { primary_db_url := "postgres://old-host/zeno"
    pool := { url := "postgres://old-host/zeno", maxConnections := 5 } }

/-- A concrete full configuration (for witnesses). -/
def cfg0 : Config :=
  { postgres_db := db0
    manager_key := "manager-key"
    coingecko_key := "coingecko-key"
    openexchangerates_key := "oxr-key"
    http_client := { timeoutSecs := 10 }
    blockscout_endpoints := [(1, "https://eth.blockscout.com/api/v2/addresses")]
    forex_interval_secs := 3600
    is_initializing_metadata := true
    token_update_id := 0
    nft_update_id := 0
    coingecko_rate_limiter := RateLimiter.new 28 60000000000 }

/-- Witness for C1: a replica candidate is rejected and the active
connection is exactly the one from before the call. -/
theorem c1_witness :
    (PostgresDb.update_primary_db_url dbEnvReplica db0 "postgres://replica-host/zeno").2 = db0 :=
  (c1_cutover_all_or_nothing dbEnvReplica db0 cfg0 "postgres://replica-host/zeno").1
    (SqlxError.configuration "New URL is a replica, not a primary database") rfl

/-- C9: a successful cutover through `Config::update_db_url` modifies only
the `postgres_db` storage fields — the new `primary_db_url` is the
candidate URL — and leaves every other `Config` field unchanged. -/
theorem c9_cutover_frame (env : DbEnv) (cfg : Config) (newUrl : String)
    (h : (Config.update_db_url env cfg newUrl).1 = .ok ()) :
    (Config.update_db_url env cfg newUrl).2.manager_key = cfg.manager_key ∧
    (Config.update_db_url env cfg newUrl).2.coingecko_key = cfg.coingecko_key ∧
    (Config.update_db_url env cfg newUrl).2.openexchangerates_key =
      cfg.openexchangerates_key ∧
    (Config.update_db_url env cfg newUrl).2.http_client = cfg.http_client ∧
    (Config.update_db_url env cfg newUrl).2.blockscout_endpoints = cfg.blockscout_endpoints ∧
    (Config.update_db_url env cfg newUrl).2.forex_interval_secs = cfg.forex_interval_secs ∧
    (Config.update_db_url env cfg newUrl).2.is_initializing_metadata =
      cfg.is_initializing_metadata ∧
    (Config.update_db_url env cfg newUrl).2.token_update_id = cfg.token_update_id ∧
    (Config.update_db_url env cfg newUrl).2.nft_update_id = cfg.nft_update_id ∧
    (Config.update_db_url env cfg newUrl).2.coingecko_rate_limiter =
      cfg.coingecko_rate_limiter ∧
    (Config.update_db_url env cfg newUrl).2.postgres_db.primary_db_url = newUrl := by
  refine ⟨rfl, rfl, rfl, rfl, rfl, rfl, rfl, rfl, rfl, rfl, ?_⟩
  rcases update_primary_cases env cfg.postgres_db newUrl with ⟨e2, heq⟩ | ⟨p, _, _, _, _, _, heq⟩
  · simp [Config.update_db_url, heq] at h
  · simp [Config.update_db_url, heq]

/-- Witness for C9 at a concrete configuration and an all-checks-pass
candidate. -/
theorem c9_witness :
    (Config.update_db_url dbEnvOk cfg0 "postgres://new-host/zeno").2.manager_key =
      cfg0.manager_key ∧
    (Config.update_db_url dbEnvOk cfg0 "postgres://new-host/zeno").2.coingecko_key =
      cfg0.coingecko_key ∧
    (Config.update_db_url dbEnvOk cfg0 "postgres://new-host/zeno").2.openexchangerates_key =
      cfg0.openexchangerates_key ∧
    (Config.update_db_url dbEnvOk cfg0 "postgres://new-host/zeno").2.http_client =
      cfg0.http_client ∧
    (Config.update_db_url dbEnvOk cfg0 "postgres://new-host/zeno").2.blockscout_endpoints =
      cfg0.blockscout_endpoints ∧
    (Config.update_db_url dbEnvOk cfg0 "postgres://new-host/zeno").2.forex_interval_secs =
      cfg0.forex_interval_secs ∧
    (Config.update_db_url dbEnvOk cfg0 "postgres://new-host/zeno").2.is_initializing_metadata =
      cfg0.is_initializing_metadata ∧
    (Config.update_db_url dbEnvOk cfg0 "postgres://new-host/zeno").2.token_update_id =
      cfg0.token_update_id ∧
    (Config.update_db_url dbEnvOk cfg0 "postgres://new-host/zeno").2.nft_update_id =
      cfg0.nft_update_id ∧
    (Config.update_db_url dbEnvOk cfg0 "postgres://new-host/zeno").2.coingecko_rate_limiter =
      cfg0.coingecko_rate_limiter ∧
    (Config.update_db_url dbEnvOk cfg0 "postgres://new-host/zeno").2.postgres_db.primary_db_url =
      "postgres://new-host/zeno" :=
  c9_cutover_frame dbEnvOk cfg0 "postgres://new-host/zeno" rfl

/-- Cycle environment for the C2 counterexample: nothing preloaded, every
fetch returns `Success` with an empty `symbol`, inserts succeed. -/
def c2Env : CycleEnv :=
  { existing := []
    fetchOf := fun _ => ItemFetch.success "" "Wrapped Thing"
    insertOk := fun _ => true }

/-- A row not yet present in the metadata table. -/
def c2Row : MapRow := { id := 7, key := "wrapped-thing", chainid := 1, address := "0xabc" }

/-- Mid-streak loop state: one transport failure already seen, at row 6. -/
def c2State : LoopState :=
  { consecFail := 1, firstFailId := some 6, inserted := 0, skipped := 0, writeAttempts := [] }

/-- C2 counterexample: a `Success` whose required `symbol` field is empty
is skipped with no write, but the consecutive-failure counter and the
first-failure marker are NOT reset — the `continue` in the source runs
before the reset statements, so the state stays at counter 1 / marker
`some 6` instead of the claimed 0 / none. -/
theorem c2_counterexample :
    tokenMetadataStep c2Env c2State c2Row = StepOut.next c2State ∧
    nftMetadataStep c2Env c2State c2Row = StepOut.next c2State ∧
    c2State.consecFail = 1 ∧ c2State.firstFailId = some 6 := by
  refine ⟨?_, ?_, rfl, rfl⟩ <;> rfl

/-- C2 amended: on `Empty` the item is skipped with no write and the
counter/marker are reset to 0/none; on `Success` with a missing or empty
required field the item is skipped with no write, but the counter and the
marker keep their previous values — they are not reset.  (This holds for
both the token and the NFT pipeline.) -/
theorem c2_amended_validation_gap (env : CycleEnv) (s : LoopState) (row : MapRow)
    (symbol name : String)
    (hex : (row.address, row.chainid) ∉ env.existing) :
    (env.fetchOf row.id = ItemFetch.empty →
      tokenMetadataStep env s row = .next { s with consecFail := 0, firstFailId := none } ∧
      nftMetadataStep env s row = .next { s with consecFail := 0, firstFailId := none }) ∧
    (env.fetchOf row.id = ItemFetch.success symbol name →
      (symbol.isEmpty || name.isEmpty) = true →
      tokenMetadataStep env s row = .next s ∧
      nftMetadataStep env s row = .next s) := by
  constructor
  · intro hf
    constructor <;> simp [tokenMetadataStep, nftMetadataStep, hex, hf]
  · intro hf hval
    constructor <;> simp [tokenMetadataStep, nftMetadataStep, hex, hf, hval]

/-- Cycle environment whose every fetch returns `Empty` (for the C2
amended witness). -/
def c2EnvEmpty : CycleEnv :=
  { existing := [], fetchOf := fun _ => ItemFetch.empty, insertOk := fun _ => true }

/-- Witness for the amended C2: an `Empty` outcome mid-streak resets the
counter and marker without writing. -/
theorem c2_amended_witness :
    tokenMetadataStep c2EnvEmpty c2State c2Row =
      .next { c2State with consecFail := 0, firstFailId := none } :=
  ((c2_amended_validation_gap c2EnvEmpty c2State c2Row "" "" (by decide)).1 rfl).1

/-- C3: on a transport `Failed` outcome, below the threshold the item is
skipped and the streak state advances — the marker is set to this row's id
exactly when the streak starts and kept otherwise; once the counter would
exceed 2 the cycle aborts and the cursor is set to the tracked first
failure id minus 1, clamped at 0; the next cycle's `id > cursor` load then
re-includes the first failing item; and an aborted loop propagates its
rollback id into the cycle's cursor.  (Both pipelines.) -/
theorem c3_rollback_to_first_failure (env : CycleEnv) (s : LoopState) (row : MapRow)
    (msg : String)
    (hex : (row.address, row.chainid) ∉ env.existing)
    (hf : env.fetchOf row.id = ItemFetch.failed msg) :
    (s.consecFail < 2 →
      tokenMetadataStep env s row =
        .next { s with
          consecFail := s.consecFail + 1
          firstFailId := if s.consecFail = 0 then some row.id else s.firstFailId } ∧
      nftMetadataStep env s row =
        .next { s with
          consecFail := s.consecFail + 1
          firstFailId := if s.consecFail = 0 then some row.id else s.firstFailId }) ∧
    (2 ≤ s.consecFail →
      tokenMetadataStep env s row =
        .abort (max ((s.firstFailId.getD row.id) - 1) 0)
          { s with consecFail := s.consecFail + 1 } ∧
      nftMetadataStep env s row =
        .abort (max ((s.firstFailId.getD row.id) - 1) 0)
          { s with consecFail := s.consecFail + 1 }) ∧
    (∀ f : Int, s.firstFailId = some f → 0 < f →
      ∀ (allRows : List MapRow) (r2 : MapRow), r2 ∈ allRows → r2.id = f →
        r2 ∈ loadBeyond allRows (max (f - 1) 0)) ∧
    (∀ (rows : List MapRow) (rollback : Int) (s2 : LoopState),
      tokenMetadataLoop env rows initLoopState = .aborted rollback s2 →
        (fetch_token_metadata_model env rows).1 = rollback) ∧
    (∀ (rows : List MapRow) (rollback : Int) (s2 : LoopState),
      nftMetadataLoop env rows initLoopState = .aborted rollback s2 →
        (fetch_nft_metadata_model env rows).1 = rollback) := by
  refine ⟨?_, ?_, ?_, ?_, ?_⟩
  · intro h
    have h0 : ¬ 2 < s.consecFail + 1 := by omega
    constructor <;> simp [tokenMetadataStep, nftMetadataStep, hex, hf, h0]
  · intro h
    have h0 : 2 < s.consecFail + 1 := by omega
    have h1 : ¬ s.consecFail = 0 := by omega
    constructor <;> simp [tokenMetadataStep, nftMetadataStep, hex, hf, h0, h1]
  · intro f hsf hf0 allRows r2 hr2 hid
    refine List.mem_filter.mpr ⟨hr2, ?_⟩
    rw [hid]
    simp only [decide_eq_true_eq]
    rw [max_eq_left (by omega : (0 : Int) ≤ f - 1)]
    omega
  · intro rows rollback s2 h
    simp [fetch_token_metadata_model, h]
  · intro rows rollback s2 h
    simp [fetch_nft_metadata_model, h]

/-- Always-failing cycle environment (for the C3 witness). -/
def c3Env : CycleEnv :=
  { existing := []
    fetchOf := fun _ => ItemFetch.failed "connection reset"
    insertOk := fun _ => true }

/-- A row whose fetch fails, hit with the streak counter already at 2. -/
def c3Row : MapRow := { id := 7, key := "tok-7", chainid := 1, address := "0xc3" }

/-- Loop state two failures into a streak that started at row 5. -/
def c3State : LoopState :=
  { consecFail := 2, firstFailId := some 5, inserted := 0, skipped := 0, writeAttempts := [] }

/-- Witness for C3: the third consecutive failure aborts and rolls the
cursor back to one before the streak's first failing row. -/
theorem c3_witness :
    tokenMetadataStep c3Env c3State c3Row =
      .abort (max ((c3State.firstFailId.getD c3Row.id) - 1) 0)
        { c3State with consecFail := c3State.consecFail + 1 } :=
  ((c3_rollback_to_first_failure c3Env c3State c3Row "connection reset" (by decide) rfl).2.1
    (by decide)).1

/-- C8: if a cycle's per-item loop completes without aborting, the cursor
(`token_update_id` / `nft_update_id`) is set to 0, so the next cycle
rescans the stream from the start. -/
theorem c8_cursor_reset_on_completion (env : CycleEnv) (rows : List MapRow)
    (s s2 : LoopState)
    (h1 : tokenMetadataLoop env rows initLoopState = .completed s)
    (h2 : nftMetadataLoop env rows initLoopState = .completed s2) :
    (fetch_token_metadata_model env rows).1 = 0 ∧
    (fetch_nft_metadata_model env rows).1 = 0 := by
  constructor
  · simp [fetch_token_metadata_model, h1]
  · simp [fetch_nft_metadata_model, h2]

/-- Cycle environment for the C8 witness. -/
def c8Env : CycleEnv :=
  { existing := [], fetchOf := fun _ => ItemFetch.empty, insertOk := fun _ => true }

/-- Witness for C8 on a concrete completing cycle. -/
theorem c8_witness :
    (fetch_token_metadata_model c8Env []).1 = 0 ∧
    (fetch_nft_metadata_model c8Env []).1 = 0 :=
  c8_cursor_reset_on_completion c8Env [] initLoopState initLoopState rfl rfl

/-- Separation relation between grant times: at least `m` apart. -/
def sepBy (m : Nat) (a b : Nat) : Prop := a + m ≤ b

/-- The refill tick never touches `last_request_time`. -/
theorem refillStep_lastRequestTime (rl : RateLimiter) (s : RLState) :
    (refillStep rl s).lastRequestTime = s.lastRequestTime := by
  unfold refillStep
  split <;> rfl

/-- A successful `acquireStep` consumes one permit and records the grant
time, which is `grantTimeOf` of the previous last-grant time. -/
theorem acquireStep_some (rl : RateLimiter) (now : Nat) (s : RLState) (g : Nat) (s2 : RLState)
    (h2 : acquireStep rl now s = some (g, s2)) :
    g = grantTimeOf rl now s.lastRequestTime ∧
    s2.permits = s.permits - 1 ∧ s2.lastRequestTime = some g := by
  unfold acquireStep at h2
  by_cases h0 : s.permits = 0
  · simp [h0] at h2
  · simp only [h0, if_false, Option.some.injEq, Prod.mk.injEq] at h2
    refine ⟨h2.1.symm, ?_, ?_⟩
    · rw [← h2.2]
    · rw [← h2.2, h2.1]

/-- With positive spacing, a grant after a recorded last-grant time is at
least the spacing later. -/
theorem grantTimeOf_ge (rl : RateLimiter) (hmi : 0 < rl.minRequestInterval)
    (now last : Nat) :
    last + rl.minRequestInterval ≤ grantTimeOf rl now (some last) := by
  simp only [grantTimeOf]
  split
  · omega
  · next h => omega

/-- Available permits stay at or below capacity under any event
interleaving: the top-up adds a permit only below capacity, and a grant
only removes one. -/
theorem runRL_permits_le (rl : RateLimiter) :
    ∀ (evs : List RLEvent) (s : RLState), s.permits ≤ rl.maxTokens →
      (runRL rl s evs).1.permits ≤ rl.maxTokens := by
  intro evs
  induction evs with
  | nil => intro s hs; simpa [runRL] using hs
  | cons ev rest ih =>
    intro s hs
    cases ev with
    | refillTick =>
      rw [runRL]
      apply ih
      unfold refillStep
      split
      · next h => simpa using h
      · exact hs
    | acquireReq now =>
      rw [runRL]
      cases h2 : acquireStep rl now s with
      | none => exact ih s hs
      | some ts =>
        have hp : ts.2.permits ≤ rl.maxTokens :=
          (acquireStep_some rl now s ts.1 ts.2 (by rw [h2])).2.1 ▸ by omega
        simpa using ih ts.2 hp

/-- Grant times are spaced by at least `min_request_interval` and, when a
last-grant time is recorded, the first grant of the run respects the
spacing from it. -/
theorem runRL_grants_sep (rl : RateLimiter) (hmi : 0 < rl.minRequestInterval) :
    ∀ (evs : List RLEvent) (s : RLState),
      List.Chain' (sepBy rl.minRequestInterval) (runRL rl s evs).2 ∧
      (∀ last t, s.lastRequestTime = some last →
        ((runRL rl s evs).2).head? = some t → last + rl.minRequestInterval ≤ t) := by
  intro evs
  induction evs with
  | nil =>
    intro s
    constructor
    · simp [runRL]
    · intro last t _ ht
      simp [runRL] at ht
  | cons ev rest ih =>
    intro s
    cases ev with
    | refillTick =>
      rw [runRL]
      refine ⟨(ih (refillStep rl s)).1, ?_⟩
      intro last t hl ht
      exact (ih (refillStep rl s)).2 last t
        (by rw [refillStep_lastRequestTime]; exact hl) ht
    | acquireReq now =>
      rw [runRL]
      cases h2 : acquireStep rl now s with
      | none => exact ih s
      | some ts =>
        obtain ⟨g, s2⟩ := ts
        obtain ⟨hg, _, hs2⟩ := acquireStep_some rl now s g s2 h2
        constructor
        · refine List.chain'_cons'.mpr ⟨?_, (ih s2).1⟩
          intro y hy
          exact (ih s2).2 g y hs2 (by simpa using hy)
        · intro last t hl ht
          simp only [List.head?_cons, Option.some.injEq] at ht
          subst ht
          rw [hg, hl]
          exact grantTimeOf_ge rl hmi now last

/-- C7: for a limiter of capacity C over window W (spacing `W / C` in
logical time units), starting full: the available permits never exceed C
under any interleaving of refill ticks and grants, the refill is the
identity at capacity (top-up is idempotent), and any two grant times are
at least the spacing apart. -/
theorem c7_rate_limiter_invariants (maxRequests timeWindow : Nat) (evs : List RLEvent)
    (hmi : 0 < timeWindow / maxRequests) :
    (runRL (RateLimiter.new maxRequests timeWindow)
        { permits := maxRequests, lastRequestTime := none } evs).1.permits ≤ maxRequests ∧
    List.Pairwise (sepBy (timeWindow / maxRequests))
      (runRL (RateLimiter.new maxRequests timeWindow)
        { permits := maxRequests, lastRequestTime := none } evs).2 ∧
    (∀ s : RLState, s.permits = maxRequests →
      refillStep (RateLimiter.new maxRequests timeWindow) s = s) := by
  refine ⟨runRL_permits_le _ evs _ le_rfl, ?_, ?_⟩
  · have hch :=
      (runRL_grants_sep (RateLimiter.new maxRequests timeWindow) hmi evs
        { permits := maxRequests, lastRequestTime := none }).1
    haveI : IsTrans Nat (sepBy (timeWindow / maxRequests)) :=
      ⟨fun a b c hab hbc => by unfold sepBy at hab hbc ⊢; omega⟩
    exact List.chain'_iff_pairwise.mp hch
  · intro s hs
    simp [refillStep, RateLimiter.new, hs]

/-- Concrete event interleaving for the C7 witness: two grants and a
refill tick on a capacity-2, window-10 limiter. -/
def c7Evs : List RLEvent := [RLEvent.acquireReq 0, RLEvent.acquireReq 3, RLEvent.refillTick]

/-- Witness for C7 at capacity 2, window 10 (spacing 5). -/
theorem c7_witness :
    (runRL (RateLimiter.new 2 10) { permits := 2, lastRequestTime := none } c7Evs).1.permits ≤ 2 ∧
    List.Pairwise (sepBy (10 / 2))
      (runRL (RateLimiter.new 2 10) { permits := 2, lastRequestTime := none } c7Evs).2 ∧
    (∀ s : RLState, s.permits = 2 → refillStep (RateLimiter.new 2 10) s = s) :=
  c7_rate_limiter_invariants 2 10 c7Evs (by decide)

end Zeno
